import Mathlib

set_option autoImplicit false

/-!
Shallow embedding of `src/portability.rs` (the io-lifetimes portability
layer). The layer bridges the POSIX resource model, where every open
resource is a file descriptor drawn from one integer-indexed table, and
the Windows resource model, where file/pipe/process handles and network
sockets are distinct identifiers drawn from separate tables.

Rust traits become Lean type classes; the blanket `impl<T: Native> Portable
for T` derivations become blanket instances whose bodies are translated
from the corresponding `impl` blocks. Every capability method returns its
result paired with the trace of OS resource-table events it performs, so
that statements such as "the operation closes nothing" are statements
about that trace. The portability layer itself never constructs an event:
its bodies only forward to the native methods, exactly as the Rust bodies
do.

The `cfg(any(unix, target_os = "wasi"))` compilation path is embedded in
namespace `Posix`, and the `cfg(windows)` path in namespace `Windows`.
The inventory of trait declarations (which platform, classification,
capability family, safe or raw form, and Rust visibility) is additionally
transcribed as data in `portabilitySurface`, so that claims about which
operations the source offers, and with what visibility, are decidable.
-/

namespace Posix

/-- Modelled from the spec: an event on the single POSIX descriptor table
("files, pipes, and sockets all share one integer-indexed descriptor
space") — opening or closing one descriptor. -/
inductive Ev
  | opened (fd : Int)
  | closed (fd : Int)
deriving DecidableEq

/-- Modelled from the spec: the POSIX Native Descriptor, "a small integer
shared by every kind of resource" (`RawFd`). -/
abbrev RawFd := Int

/-- Modelled from the spec: the Borrowed Reference wrapper `BorrowedFd`, a
non-owning reference carrying a native descriptor value (declared in the
crate root, not under `src/`). -/
structure BorrowedFd where
  raw : RawFd
deriving DecidableEq

/-- Modelled from the spec: the Owned Resource wrapper `OwnedFd`, the
exclusive holder of a native descriptor value (declared in the crate root,
not under `src/`). -/
structure OwnedFd where
  raw : RawFd
deriving DecidableEq

/-- Modelled from the spec: the native borrow capability `AsFd` (declared
outside `src/`): produce a borrowed reference, together with the trace of
OS events the concrete implementation performs. -/
class AsFd (α : Type) where
  as_fd : α → BorrowedFd × List Ev

/-- Modelled from the spec: the native consume capability `IntoFd`
(declared outside `src/`). -/
class IntoFd (α : Type) where
  into_fd : α → OwnedFd × List Ev

/-- Modelled from the spec: the native construct capability `FromFd`
(declared outside `src/`). -/
class FromFd (α : Type) where
  from_fd : OwnedFd → α × List Ev

/-- Modelled from the spec: the native raw borrow capability `AsRawFd`
(from the standard library, outside `src/`). -/
class AsRawFd (α : Type) where
  as_raw_fd : α → RawFd × List Ev

/-- Modelled from the spec: the native raw consume capability `IntoRawFd`
(from the standard library, outside `src/`). -/
class IntoRawFd (α : Type) where
  into_raw_fd : α → RawFd × List Ev

/-- Modelled from the spec: the native raw construct capability
`FromRawFd` (from the standard library, outside `src/`). -/
class FromRawFd (α : Type) where
  from_raw_fd : RawFd → α × List Ev

/-- `pub type BorrowedFilelike = BorrowedFd` (portability.rs line 26). -/
abbrev BorrowedFilelike := BorrowedFd

/-- `pub type BorrowedSocketlike = BorrowedFd` (line 34). -/
abbrev BorrowedSocketlike := BorrowedFd

/-- `pub type OwnedFilelike = OwnedFd` (line 42). -/
abbrev OwnedFilelike := OwnedFd

/-- `pub type OwnedSocketlike = OwnedFd` (line 50). -/
abbrev OwnedSocketlike := OwnedFd

/-- `pub(crate) type RawFilelike = RawFd` (line 57). -/
abbrev RawFilelike := RawFd

/-- `pub(crate) type RawSocketlike = RawFd` (line 63). -/
abbrev RawSocketlike := RawFd

/-- `pub trait AsFilelike: AsFd` (line 70). -/
class AsFilelike (α : Type) extends AsFd α where
  as_filelike : α → BorrowedFilelike × List Ev

/-- `impl<T: AsFd> AsFilelike for T { fn as_filelike(&self) { self.as_fd() } }`
(lines 76-81). -/
instance instAsFilelike {α : Type} [AsFd α] : AsFilelike α where
  as_filelike x := AsFd.as_fd x

/-- `pub trait AsSocketlike: AsFd` (line 100). -/
class AsSocketlike (α : Type) extends AsFd α where
  as_socketlike : α → BorrowedSocketlike × List Ev

/-- `impl<T: AsFd> AsSocketlike for T { fn as_socketlike(&self) { self.as_fd() } }`
(lines 106-111). -/
instance instAsSocketlike {α : Type} [AsFd α] : AsSocketlike α where
  as_socketlike x := AsFd.as_fd x

/-- `pub trait IntoFilelike: IntoFd` (line 131). -/
class IntoFilelike (α : Type) extends IntoFd α where
  into_filelike : α → OwnedFilelike × List Ev

/-- `impl<T: IntoFd> IntoFilelike for T { fn into_filelike(self) { self.into_fd() } }`
(lines 137-142). -/
instance instIntoFilelike {α : Type} [IntoFd α] : IntoFilelike α where
  into_filelike x := IntoFd.into_fd x

/-- `pub trait IntoSocketlike: IntoFd` (line 163). -/
class IntoSocketlike (α : Type) extends IntoFd α where
  into_socketlike : α → OwnedSocketlike × List Ev

/-- `impl<T: IntoFd> IntoSocketlike for T { fn into_socketlike(self) { self.into_fd() } }`
(lines 169-174). -/
instance instIntoSocketlike {α : Type} [IntoFd α] : IntoSocketlike α where
  into_socketlike x := IntoFd.into_fd x

/-- `pub trait FromFilelike: FromFd` (lines 195-202), with its two methods
`from_filelike` and `from_into_filelike`. -/
class FromFilelike (α : Type) extends FromFd α where
  from_filelike : OwnedFilelike → α × List Ev
  from_into_filelike : {Owned : Type} → [IntoFilelike Owned] → Owned → α × List Ev

/-- `impl<T: FromFd> FromFilelike for T` (lines 205-215): `from_filelike`
is `Self::from_fd(owned)`; `from_into_filelike` is
`Self::from_filelike(owned.into_filelike())`, i.e. the consume trace
followed by the construct trace (here `Self::from_filelike` of this same
impl is `Self::from_fd`, inlined one step). -/
instance instFromFilelike {α : Type} [FromFd α] : FromFilelike α where
  from_filelike o := FromFd.from_fd o
  from_into_filelike x :=
    let p := IntoFilelike.into_filelike x
    let q : α × List Ev := FromFd.from_fd p.1
    (q.1, p.2 ++ q.2)

/-- `pub trait FromSocketlike: FromFd` (lines 245-252). -/
class FromSocketlike (α : Type) extends FromFd α where
  from_socketlike : OwnedSocketlike → α × List Ev
  from_into_socketlike : {Owned : Type} → [IntoSocketlike Owned] → Owned → α × List Ev

/-- `impl<T: FromFd> FromSocketlike for T` (lines 255-265). -/
instance instFromSocketlike {α : Type} [FromFd α] : FromSocketlike α where
  from_socketlike o := FromFd.from_fd o
  from_into_socketlike x :=
    let p := IntoSocketlike.into_socketlike x
    let q : α × List Ev := FromFd.from_fd p.1
    (q.1, p.2 ++ q.2)

/-- `pub(crate) trait AsRawFilelike: AsRawFd` (line 293). -/
class AsRawFilelike (α : Type) extends AsRawFd α where
  as_raw_filelike : α → RawFilelike × List Ev

/-- `impl<T: AsRawFd> AsRawFilelike for T` (lines 298-303). -/
instance instAsRawFilelike {α : Type} [AsRawFd α] : AsRawFilelike α where
  as_raw_filelike x := AsRawFd.as_raw_fd x

/-- `pub(crate) trait AsRawSocketlike: AsRawFd` (line 319). -/
class AsRawSocketlike (α : Type) extends AsRawFd α where
  as_raw_socketlike : α → RawSocketlike × List Ev

/-- `impl<T: AsRawFd> AsRawSocketlike for T` (lines 324-329). -/
instance instAsRawSocketlike {α : Type} [AsRawFd α] : AsRawSocketlike α where
  as_raw_socketlike x := AsRawFd.as_raw_fd x

/-- `pub(crate) trait IntoRawFilelike: IntoRawFd` (line 345). Note that
portability.rs declares no POSIX `IntoRawSocketlike` counterpart: the
`IntoRawSocketlike` trait exists only under `cfg(windows)` (lines
370-381). -/
class IntoRawFilelike (α : Type) extends IntoRawFd α where
  into_raw_filelike : α → RawFilelike × List Ev

/-- `impl<T: IntoRawFd> IntoRawFilelike for T` (lines 350-355). -/
instance instIntoRawFilelike {α : Type} [IntoRawFd α] : IntoRawFilelike α where
  into_raw_filelike x := IntoRawFd.into_raw_fd x

/-- `pub(crate) trait FromRawFilelike: FromRawFd` (line 384), method
`unsafe fn from_raw_filelike`. -/
class FromRawFilelike (α : Type) extends FromRawFd α where
  from_raw_filelike : RawFilelike → α × List Ev

/-- `impl<T: FromRawFd> FromRawFilelike for T` (lines 389-394). -/
instance instFromRawFilelike {α : Type} [FromRawFd α] : FromRawFilelike α where
  from_raw_filelike r := FromRawFd.from_raw_fd r

/-- `pub(crate) trait FromRawSocketlike: FromRawFd` (line 410), method
`unsafe fn from_raw_socketlike`. -/
class FromRawSocketlike (α : Type) extends FromRawFd α where
  from_raw_socketlike : RawSocketlike → α × List Ev

/-- `impl<T: FromRawFd> FromRawSocketlike for T` (lines 415-420). -/
instance instFromRawSocketlike {α : Type} [FromRawFd α] : FromRawSocketlike α where
  from_raw_socketlike r := FromRawFd.from_raw_fd r

/-- Modelled from the spec: a concrete POSIX resource object ("concrete
resource types (files, pipes, TCP/UDP sockets, processes) that implement
the native-specific capabilities"), whose native capability
implementations are pure relabelings performing no OS events. Used to
instantiate the universally quantified theorems at a concrete input. -/
structure File where
  raw : RawFd
deriving DecidableEq

instance : AsFd File where
  as_fd f := (⟨f.raw⟩, [])

instance : IntoFd File where
  into_fd f := (⟨f.raw⟩, [])

instance : FromFd File where
  from_fd o := (⟨o.raw⟩, [])

instance : AsRawFd File where
  as_raw_fd f := (f.raw, [])

instance : IntoRawFd File where
  into_raw_fd f := (f.raw, [])

instance : FromRawFd File where
  from_raw_fd r := (⟨r⟩, [])

end Posix

namespace Windows

/-- Modelled from the spec: an event on the Windows resource tables
("file/pipe/process handles and network sockets are distinct opaque
identifiers drawn from separate resource tables with separate closing
semantics") — each table has its own open and close events. -/
inductive Ev
  | openedHandle (h : Nat)
  | closedHandle (h : Nat)
  | openedSocket (s : Nat)
  | closedSocket (s : Nat)
deriving DecidableEq

/-- Modelled from the spec: the Windows native handle identifier
(`RawHandle`, a pointer-sized opaque value, represented by its address). -/
abbrev RawHandle := Nat

/-- Modelled from the spec: the Windows native socket identifier
(`RawSocket`, an opaque value from the socket table). -/
abbrev RawSocket := Nat

/-- Modelled from the spec: the Borrowed Reference wrapper
`BorrowedHandle` (declared in the crate root, not under `src/`). -/
structure BorrowedHandle where
  raw : RawHandle
deriving DecidableEq

/-- Modelled from the spec: the Owned Resource wrapper `OwnedHandle`
(declared in the crate root, not under `src/`). -/
structure OwnedHandle where
  raw : RawHandle
deriving DecidableEq

/-- Modelled from the spec: the Borrowed Reference wrapper
`BorrowedSocket` (declared in the crate root, not under `src/`). -/
structure BorrowedSocket where
  raw : RawSocket
deriving DecidableEq

/-- Modelled from the spec: the Owned Resource wrapper `OwnedSocket`
(declared in the crate root, not under `src/`). -/
structure OwnedSocket where
  raw : RawSocket
deriving DecidableEq

/-- Modelled from the spec: the native borrow capability `AsHandle`
(declared outside `src/`). -/
class AsHandle (α : Type) where
  as_handle : α → BorrowedHandle × List Ev

/-- Modelled from the spec: the native borrow capability `AsSocket`
(declared outside `src/`). -/
class AsSocket (α : Type) where
  as_socket : α → BorrowedSocket × List Ev

/-- Modelled from the spec: the native consume capability `IntoHandle`
(declared outside `src/`). -/
class IntoHandle (α : Type) where
  into_handle : α → OwnedHandle × List Ev

/-- Modelled from the spec: the native consume capability `IntoSocket`
(declared outside `src/`). -/
class IntoSocket (α : Type) where
  into_socket : α → OwnedSocket × List Ev

/-- Modelled from the spec: the native construct capability `FromHandle`
(declared outside `src/`). -/
class FromHandle (α : Type) where
  from_handle : OwnedHandle → α × List Ev

/-- Modelled from the spec: the native construct capability `FromSocket`
(declared outside `src/`). -/
class FromSocket (α : Type) where
  from_socket : OwnedSocket → α × List Ev

/-- Modelled from the spec: the native raw borrow capability `AsRawHandle`
(standard library, outside `src/`). -/
class AsRawHandle (α : Type) where
  as_raw_handle : α → RawHandle × List Ev

/-- Modelled from the spec: the native raw borrow capability `AsRawSocket`
(standard library, outside `src/`). -/
class AsRawSocket (α : Type) where
  as_raw_socket : α → RawSocket × List Ev

/-- Modelled from the spec: the native raw consume capability
`IntoRawHandle` (standard library, outside `src/`). -/
class IntoRawHandle (α : Type) where
  into_raw_handle : α → RawHandle × List Ev

/-- Modelled from the spec: the native raw consume capability
`IntoRawSocket` (standard library, outside `src/`). -/
class IntoRawSocket (α : Type) where
  into_raw_socket : α → RawSocket × List Ev

/-- Modelled from the spec: the native raw construct capability
`FromRawHandle` (standard library, outside `src/`). -/
class FromRawHandle (α : Type) where
  from_raw_handle : RawHandle → α × List Ev

/-- Modelled from the spec: the native raw construct capability
`FromRawSocket` (standard library, outside `src/`). -/
class FromRawSocket (α : Type) where
  from_raw_socket : RawSocket → α × List Ev

/-- `pub type BorrowedFilelike = BorrowedHandle` (portability.rs line 30). -/
abbrev BorrowedFilelike := BorrowedHandle

/-- `pub type BorrowedSocketlike = BorrowedSocket` (line 38). -/
abbrev BorrowedSocketlike := BorrowedSocket

/-- `pub type OwnedFilelike = OwnedHandle` (line 46). -/
abbrev OwnedFilelike := OwnedHandle

/-- `pub type OwnedSocketlike = OwnedSocket` (line 54). -/
abbrev OwnedSocketlike := OwnedSocket

/-- `pub(crate) type RawFilelike = RawHandle` (line 60). -/
abbrev RawFilelike := RawHandle

/-- `pub(crate) type RawSocketlike = RawSocket` (line 66). -/
abbrev RawSocketlike := RawSocket

/-- `pub trait AsFilelike: AsHandle` (line 85). -/
class AsFilelike (α : Type) extends AsHandle α where
  as_filelike : α → BorrowedFilelike × List Ev

/-- `impl<T: AsHandle> AsFilelike for T { fn as_filelike(&self) { self.as_handle() } }`
(lines 91-96). -/
instance instAsFilelike {α : Type} [AsHandle α] : AsFilelike α where
  as_filelike x := AsHandle.as_handle x

/-- `pub trait AsSocketlike: AsSocket` (line 115). -/
class AsSocketlike (α : Type) extends AsSocket α where
  as_socketlike : α → BorrowedSocketlike × List Ev

/-- `impl<T: AsSocket> AsSocketlike for T { fn as_socketlike(&self) { self.as_socket() } }`
(lines 121-126). -/
instance instAsSocketlike {α : Type} [AsSocket α] : AsSocketlike α where
  as_socketlike x := AsSocket.as_socket x

/-- `pub trait IntoFilelike: IntoHandle` (line 147). -/
class IntoFilelike (α : Type) extends IntoHandle α where
  into_filelike : α → OwnedFilelike × List Ev

/-- `impl<T: IntoHandle> IntoFilelike for T { fn into_filelike(self) { self.into_handle() } }`
(lines 153-158). -/
instance instIntoFilelike {α : Type} [IntoHandle α] : IntoFilelike α where
  into_filelike x := IntoHandle.into_handle x

/-- `pub trait IntoSocketlike: IntoSocket` (line 179). -/
class IntoSocketlike (α : Type) extends IntoSocket α where
  into_socketlike : α → OwnedSocketlike × List Ev

/-- `impl<T: IntoSocket> IntoSocketlike for T { fn into_socketlike(self) { self.into_socket() } }`
(lines 185-190). -/
instance instIntoSocketlike {α : Type} [IntoSocket α] : IntoSocketlike α where
  into_socketlike x := IntoSocket.into_socket x

/-- `pub trait FromFilelike: FromHandle` (lines 220-227). -/
class FromFilelike (α : Type) extends FromHandle α where
  from_filelike : OwnedFilelike → α × List Ev
  from_into_filelike : {Owned : Type} → [IntoFilelike Owned] → Owned → α × List Ev

/-- `impl<T: FromHandle> FromFilelike for T` (lines 230-240): `from_filelike`
is `Self::from_handle(owned)`; `from_into_filelike` is
`Self::from_filelike(owned.into_filelike())` (with `Self::from_filelike`
of this same impl, i.e. `Self::from_handle`, inlined one step). -/
instance instFromFilelike {α : Type} [FromHandle α] : FromFilelike α where
  from_filelike o := FromHandle.from_handle o
  from_into_filelike x :=
    let p := IntoFilelike.into_filelike x
    let q : α × List Ev := FromHandle.from_handle p.1
    (q.1, p.2 ++ q.2)

/-- `pub trait FromSocketlike: FromSocket` (lines 270-277). -/
class FromSocketlike (α : Type) extends FromSocket α where
  from_socketlike : OwnedSocketlike → α × List Ev
  from_into_socketlike : {Owned : Type} → [IntoSocketlike Owned] → Owned → α × List Ev

/-- `impl<T: FromSocket> FromSocketlike for T` (lines 280-290). -/
instance instFromSocketlike {α : Type} [FromSocket α] : FromSocketlike α where
  from_socketlike o := FromSocket.from_socket o
  from_into_socketlike x :=
    let p := IntoSocketlike.into_socketlike x
    let q : α × List Ev := FromSocket.from_socket p.1
    (q.1, p.2 ++ q.2)

/-- `pub(crate) trait AsRawFilelike: AsRawHandle` (line 306). -/
class AsRawFilelike (α : Type) extends AsRawHandle α where
  as_raw_filelike : α → RawFilelike × List Ev

/-- `impl<T: AsRawHandle> AsRawFilelike for T` (lines 311-316). -/
instance instAsRawFilelike {α : Type} [AsRawHandle α] : AsRawFilelike α where
  as_raw_filelike x := AsRawHandle.as_raw_handle x

/-- `pub(crate) trait AsRawSocketlike: AsRawSocket` (line 332). -/
class AsRawSocketlike (α : Type) extends AsRawSocket α where
  as_raw_socketlike : α → RawSocketlike × List Ev

/-- `impl<T: AsRawSocket> AsRawSocketlike for T` (lines 337-342). -/
instance instAsRawSocketlike {α : Type} [AsRawSocket α] : AsRawSocketlike α where
  as_raw_socketlike x := AsRawSocket.as_raw_socket x

/-- `pub(crate) trait IntoRawFilelike: IntoRawHandle` (line 358). -/
class IntoRawFilelike (α : Type) extends IntoRawHandle α where
  into_raw_filelike : α → RawFilelike × List Ev

/-- `impl<T: IntoRawHandle> IntoRawFilelike for T` (lines 363-368). -/
instance instIntoRawFilelike {α : Type} [IntoRawHandle α] : IntoRawFilelike α where
  into_raw_filelike x := IntoRawHandle.into_raw_handle x

/-- `pub(crate) trait IntoRawSocketlike: IntoRawSocket` (line 371) — this
trait exists only on the Windows path; portability.rs has no POSIX
counterpart. -/
class IntoRawSocketlike (α : Type) extends IntoRawSocket α where
  into_raw_socketlike : α → RawSocketlike × List Ev

/-- `impl<T: IntoRawSocket> IntoRawSocketlike for T` (lines 376-381). -/
instance instIntoRawSocketlike {α : Type} [IntoRawSocket α] : IntoRawSocketlike α where
  into_raw_socketlike x := IntoRawSocket.into_raw_socket x

/-- `pub(crate) trait FromRawFilelike: FromRawHandle` (line 397), method
`unsafe fn from_raw_filelike`. -/
class FromRawFilelike (α : Type) extends FromRawHandle α where
  from_raw_filelike : RawFilelike → α × List Ev

/-- `impl<T: FromRawHandle> FromRawFilelike for T` (lines 402-407). -/
instance instFromRawFilelike {α : Type} [FromRawHandle α] : FromRawFilelike α where
  from_raw_filelike r := FromRawHandle.from_raw_handle r

/-- `pub(crate) trait FromRawSocketlike: FromRawSocket` (line 423), method
`unsafe fn from_raw_socketlike`. -/
class FromRawSocketlike (α : Type) extends FromRawSocket α where
  from_raw_socketlike : RawSocketlike → α × List Ev

/-- `impl<T: FromRawSocket> FromRawSocketlike for T` (lines 428-433). -/
instance instFromRawSocketlike {α : Type} [FromRawSocket α] : FromRawSocketlike α where
  from_raw_socketlike r := FromRawSocket.from_raw_socket r

/-- Modelled from the spec: a concrete Windows handle-owning resource
object whose native capability implementations are pure relabelings
performing no OS events. -/
structure FileW where
  raw : RawHandle
deriving DecidableEq

instance : AsHandle FileW where
  as_handle f := (⟨f.raw⟩, [])

instance : IntoHandle FileW where
  into_handle f := (⟨f.raw⟩, [])

instance : FromHandle FileW where
  from_handle o := (⟨o.raw⟩, [])

instance : AsRawHandle FileW where
  as_raw_handle f := (f.raw, [])

instance : IntoRawHandle FileW where
  into_raw_handle f := (f.raw, [])

instance : FromRawHandle FileW where
  from_raw_handle r := (⟨r⟩, [])

/-- Modelled from the spec: a concrete Windows socket-owning resource
object whose native capability implementations are pure relabelings
performing no OS events. -/
structure Sock where
  raw : RawSocket
deriving DecidableEq

instance : AsSocket Sock where
  as_socket s := (⟨s.raw⟩, [])

instance : IntoSocket Sock where
  into_socket s := (⟨s.raw⟩, [])

instance : FromSocket Sock where
  from_socket o := (⟨o.raw⟩, [])

instance : AsRawSocket Sock where
  as_raw_socket s := (s.raw, [])

instance : IntoRawSocket Sock where
  into_raw_socket s := (s.raw, [])

instance : FromRawSocket Sock where
  from_raw_socket r := (⟨r⟩, [])

end Windows

/-- The two platform families compiled by portability.rs: the
`cfg(any(unix, target_os = "wasi"))` path and the `cfg(windows)` path. -/
inductive Platform
  | posix
  | windows
deriving DecidableEq, Fintype

/-- The two semantic classifications of the layer. -/
inductive Classification
  | filelike
  | socketlike
deriving DecidableEq, Fintype

/-- The three capability families: borrow (`As*`), consume (`Into*`) and
construct (`From*`). -/
inductive CapFamily
  | borrow
  | consume
  | construct
deriving DecidableEq, Fintype

/-- Safe form (`AsFilelike`, ...) versus raw form (`AsRawFilelike`, ...)
of a capability. -/
inductive CapForm
  | safe
  | raw
deriving DecidableEq, Fintype

/-- Rust visibility of a trait declaration in portability.rs: `pub` or
`pub(crate)`. -/
inductive Visibility
  | vpub
  | vpubCrate
deriving DecidableEq, Fintype

/-- One trait declaration of portability.rs, identified by platform path,
classification, capability family, safe/raw form, and its declared Rust
visibility. -/
structure TraitEntry where
  plat : Platform
  cls : Classification
  family : CapFamily
  form : CapForm
  vis : Visibility
deriving DecidableEq

/-- The complete inventory of trait declarations in portability.rs, one
entry per trait, in source order. No other capability trait is declared in
the file; in particular the POSIX path declares no `IntoRawSocketlike`. -/
def portabilitySurface : List TraitEntry :=
  [ -- `pub trait AsFilelike: AsFd` (line 70)
    ⟨.posix, .filelike, .borrow, .safe, .vpub⟩,
    -- `pub trait AsFilelike: AsHandle` (line 85)
    ⟨.windows, .filelike, .borrow, .safe, .vpub⟩,
    -- `pub trait AsSocketlike: AsFd` (line 100)
    ⟨.posix, .socketlike, .borrow, .safe, .vpub⟩,
    -- `pub trait AsSocketlike: AsSocket` (line 115)
    ⟨.windows, .socketlike, .borrow, .safe, .vpub⟩,
    -- `pub trait IntoFilelike: IntoFd` (line 131)
    ⟨.posix, .filelike, .consume, .safe, .vpub⟩,
    -- `pub trait IntoFilelike: IntoHandle` (line 147)
    ⟨.windows, .filelike, .consume, .safe, .vpub⟩,
    -- `pub trait IntoSocketlike: IntoFd` (line 163)
    ⟨.posix, .socketlike, .consume, .safe, .vpub⟩,
    -- `pub trait IntoSocketlike: IntoSocket` (line 179)
    ⟨.windows, .socketlike, .consume, .safe, .vpub⟩,
    -- `pub trait FromFilelike: FromFd` (line 195)
    ⟨.posix, .filelike, .construct, .safe, .vpub⟩,
    -- `pub trait FromFilelike: FromHandle` (line 220)
    ⟨.windows, .filelike, .construct, .safe, .vpub⟩,
    -- `pub trait FromSocketlike: FromFd` (line 245)
    ⟨.posix, .socketlike, .construct, .safe, .vpub⟩,
    -- `pub trait FromSocketlike: FromSocket` (line 270)
    ⟨.windows, .socketlike, .construct, .safe, .vpub⟩,
    -- `pub(crate) trait AsRawFilelike: AsRawFd` (line 293)
    ⟨.posix, .filelike, .borrow, .raw, .vpubCrate⟩,
    -- `pub(crate) trait AsRawFilelike: AsRawHandle` (line 306)
    ⟨.windows, .filelike, .borrow, .raw, .vpubCrate⟩,
    -- `pub(crate) trait AsRawSocketlike: AsRawFd` (line 319)
    ⟨.posix, .socketlike, .borrow, .raw, .vpubCrate⟩,
    -- `pub(crate) trait AsRawSocketlike: AsRawSocket` (line 332)
    ⟨.windows, .socketlike, .borrow, .raw, .vpubCrate⟩,
    -- `pub(crate) trait IntoRawFilelike: IntoRawFd` (line 345)
    ⟨.posix, .filelike, .consume, .raw, .vpubCrate⟩,
    -- `pub(crate) trait IntoRawFilelike: IntoRawHandle` (line 358)
    ⟨.windows, .filelike, .consume, .raw, .vpubCrate⟩,
    -- `pub(crate) trait IntoRawSocketlike: IntoRawSocket` (line 371);
    -- no POSIX counterpart exists anywhere in the file
    ⟨.windows, .socketlike, .consume, .raw, .vpubCrate⟩,
    -- `pub(crate) trait FromRawFilelike: FromRawFd` (line 384)
    ⟨.posix, .filelike, .construct, .raw, .vpubCrate⟩,
    -- `pub(crate) trait FromRawFilelike: FromRawHandle` (line 397)
    ⟨.windows, .filelike, .construct, .raw, .vpubCrate⟩,
    -- `pub(crate) trait FromRawSocketlike: FromRawFd` (line 410)
    ⟨.posix, .socketlike, .construct, .raw, .vpubCrate⟩,
    -- `pub(crate) trait FromRawSocketlike: FromRawSocket` (line 423)
    ⟨.windows, .socketlike, .construct, .raw, .vpubCrate⟩ ]

/-- Whether portability.rs declares a trait offering the given capability
family for the given classification on the given platform path, in the
given (safe or raw) form. -/
def offersForm (p : Platform) (c : Classification) (fam : CapFamily)
    (form : CapForm) : Bool :=
  portabilitySurface.any fun e =>
    e.plat == p && e.cls == c && e.family == fam && e.form == form

/-- The native owned wrapper types the Platform Resource Model can select
for the `Owned*like` aliases. -/
inductive OwnedTy
  | ownedFd
  | ownedHandle
  | ownedSocket
deriving DecidableEq, Fintype

/-- The native borrowed wrapper types the Platform Resource Model can
select for the `Borrowed*like` aliases. -/
inductive BorrowedTy
  | borrowedFd
  | borrowedHandle
  | borrowedSocket
deriving DecidableEq, Fintype

/-- The native type each platform path selects for `OwnedFilelike`:
`OwnedFd` on POSIX (line 42), `OwnedHandle` on Windows (line 46). -/
def ownedFilelikeTy : Platform → OwnedTy
  | .posix => .ownedFd
  | .windows => .ownedHandle

/-- The native type each platform path selects for `OwnedSocketlike`:
`OwnedFd` on POSIX (line 50), `OwnedSocket` on Windows (line 54). -/
def ownedSocketlikeTy : Platform → OwnedTy
  | .posix => .ownedFd
  | .windows => .ownedSocket

/-- The native type each platform path selects for `BorrowedFilelike`:
`BorrowedFd` on POSIX (line 26), `BorrowedHandle` on Windows (line 30). -/
def borrowedFilelikeTy : Platform → BorrowedTy
  | .posix => .borrowedFd
  | .windows => .borrowedHandle

/-- The native type each platform path selects for `BorrowedSocketlike`:
`BorrowedFd` on POSIX (line 34), `BorrowedSocket` on Windows (line 38). -/
def borrowedSocketlikeTy : Platform → BorrowedTy
  | .posix => .borrowedFd
  | .windows => .borrowedSocket

/-- C1: for every object whose type supports the native consume capability
(`IntoFd` on the POSIX family, `IntoHandle`/`IntoSocket` on Windows),
consuming it via `into_filelike` (resp. `into_socketlike`) yields an owned
resource whose raw value equals the raw value observed on the object
before consumption, and the operation performs no open and no close of any
OS resource. The hypotheses state the external collaborator contract of
the native consume capability (it is itself a pure relabeling); the
portability layer forwards to it and adds no event. -/
theorem into_filelike_pure_relabeling
    {α β γ : Type} [Posix.AsFd α] [Posix.IntoFd α]
    [Windows.AsHandle β] [Windows.IntoHandle β]
    [Windows.AsSocket γ] [Windows.IntoSocket γ]
    (x : α) (y : β) (z : γ)
    (hx1 : (Posix.IntoFd.into_fd x).1.raw = (Posix.AsFd.as_fd x).1.raw)
    (hx2 : (Posix.IntoFd.into_fd x).2 = [])
    (hy1 : (Windows.IntoHandle.into_handle y).1.raw
      = (Windows.AsHandle.as_handle y).1.raw)
    (hy2 : (Windows.IntoHandle.into_handle y).2 = [])
    (hz1 : (Windows.IntoSocket.into_socket z).1.raw
      = (Windows.AsSocket.as_socket z).1.raw)
    (hz2 : (Windows.IntoSocket.into_socket z).2 = []) :
    ((Posix.IntoFilelike.into_filelike x).1.raw = (Posix.AsFd.as_fd x).1.raw
      ∧ (Posix.IntoFilelike.into_filelike x).2 = []
      ∧ (Posix.IntoSocketlike.into_socketlike x).1.raw = (Posix.AsFd.as_fd x).1.raw
      ∧ (Posix.IntoSocketlike.into_socketlike x).2 = [])
    ∧ ((Windows.IntoFilelike.into_filelike y).1.raw
        = (Windows.AsHandle.as_handle y).1.raw
      ∧ (Windows.IntoFilelike.into_filelike y).2 = []
      ∧ (Windows.IntoSocketlike.into_socketlike z).1.raw
        = (Windows.AsSocket.as_socket z).1.raw
      ∧ (Windows.IntoSocketlike.into_socketlike z).2 = []) :=
  ⟨⟨hx1, hx2, hx1, hx2⟩, ⟨hy1, hy2, hz1, hz2⟩⟩

/-- Witness for C1 at concrete relabeling resources. -/
theorem into_filelike_pure_relabeling_witness :
    (Posix.IntoFilelike.into_filelike (Posix.File.mk 3)).1.raw
        = (Posix.AsFd.as_fd (Posix.File.mk 3)).1.raw
      ∧ (Posix.IntoFilelike.into_filelike (Posix.File.mk 3)).2 = [] :=
  ⟨(into_filelike_pure_relabeling (Posix.File.mk 3) (Windows.FileW.mk 7)
      (Windows.Sock.mk 9) rfl rfl rfl rfl rfl rfl).1.1,
    (into_filelike_pure_relabeling (Posix.File.mk 3) (Windows.FileW.mk 7)
      (Windows.Sock.mk 9) rfl rfl rfl rfl rfl rfl).1.2.1⟩

/-- C2: for every object supporting the consume capability and every
target type supporting the construct capability, `from_into_filelike x` is
observably equivalent — same constructed value and the same trace of OS
events — to `from_filelike (into_filelike x)`, and likewise for the
socketlike pair, on both platform families. -/
theorem from_into_roundtrip
    {α β γ δ ε ζ : Type}
    [Posix.FromFd α] [Posix.IntoFd β]
    [Windows.FromHandle γ] [Windows.IntoHandle δ]
    [Windows.FromSocket ε] [Windows.IntoSocket ζ]
    (b : β) (d : δ) (f : ζ) :
    ((Posix.FromFilelike.from_into_filelike b : α × List Posix.Ev)
      = ((Posix.FromFilelike.from_filelike
            (Posix.IntoFilelike.into_filelike b).1 : α × List Posix.Ev).1,
          (Posix.IntoFilelike.into_filelike b).2
            ++ (Posix.FromFilelike.from_filelike
                  (Posix.IntoFilelike.into_filelike b).1 : α × List Posix.Ev).2)
      ∧ (Posix.FromSocketlike.from_into_socketlike b : α × List Posix.Ev)
      = ((Posix.FromSocketlike.from_socketlike
            (Posix.IntoSocketlike.into_socketlike b).1 : α × List Posix.Ev).1,
          (Posix.IntoSocketlike.into_socketlike b).2
            ++ (Posix.FromSocketlike.from_socketlike
                  (Posix.IntoSocketlike.into_socketlike b).1 : α × List Posix.Ev).2))
    ∧ ((Windows.FromFilelike.from_into_filelike d : γ × List Windows.Ev)
      = ((Windows.FromFilelike.from_filelike
            (Windows.IntoFilelike.into_filelike d).1 : γ × List Windows.Ev).1,
          (Windows.IntoFilelike.into_filelike d).2
            ++ (Windows.FromFilelike.from_filelike
                  (Windows.IntoFilelike.into_filelike d).1 : γ × List Windows.Ev).2)
      ∧ (Windows.FromSocketlike.from_into_socketlike f : ε × List Windows.Ev)
      = ((Windows.FromSocketlike.from_socketlike
            (Windows.IntoSocketlike.into_socketlike f).1 : ε × List Windows.Ev).1,
          (Windows.IntoSocketlike.into_socketlike f).2
            ++ (Windows.FromSocketlike.from_socketlike
                  (Windows.IntoSocketlike.into_socketlike f).1 : ε × List Windows.Ev).2)) :=
  ⟨⟨rfl, rfl⟩, ⟨rfl, rfl⟩⟩

/-- Witness for C2 at a concrete input: consuming a POSIX resource and
reconstructing it in one step agrees with the two-step route. -/
theorem from_into_roundtrip_witness :
    (Posix.FromFilelike.from_into_filelike (Posix.File.mk 3)
        : Posix.File × List Posix.Ev)
      = ((Posix.FromFilelike.from_filelike
            (Posix.IntoFilelike.into_filelike (Posix.File.mk 3)).1
            : Posix.File × List Posix.Ev).1,
          (Posix.IntoFilelike.into_filelike (Posix.File.mk 3)).2
            ++ (Posix.FromFilelike.from_filelike
                  (Posix.IntoFilelike.into_filelike (Posix.File.mk 3)).1
                  : Posix.File × List Posix.Ev).2) :=
  (from_into_roundtrip (α := Posix.File) (γ := Windows.FileW) (ε := Windows.Sock)
    (Posix.File.mk 3) (Windows.FileW.mk 7) (Windows.Sock.mk 9)).1.1

/-- C3: for every object whose type supports the native borrow capability
(`AsFd` on POSIX, `AsHandle`/`AsSocket` on Windows), `as_filelike`
(resp. `as_socketlike`) returns a borrowed reference whose raw value
equals the raw value of the native borrow. -/
theorem as_filelike_raw_eq_native_borrow
    {α β γ : Type} [Posix.AsFd α] [Windows.AsHandle β] [Windows.AsSocket γ]
    (x : α) (y : β) (z : γ) :
    ((Posix.AsFilelike.as_filelike x).1.raw = (Posix.AsFd.as_fd x).1.raw
      ∧ (Posix.AsSocketlike.as_socketlike x).1.raw = (Posix.AsFd.as_fd x).1.raw)
    ∧ ((Windows.AsFilelike.as_filelike y).1.raw
        = (Windows.AsHandle.as_handle y).1.raw
      ∧ (Windows.AsSocketlike.as_socketlike z).1.raw
        = (Windows.AsSocket.as_socket z).1.raw) :=
  ⟨⟨rfl, rfl⟩, ⟨rfl, rfl⟩⟩

/-- Witness for C3 at concrete resources. -/
theorem as_filelike_raw_eq_native_borrow_witness :
    (Posix.AsFilelike.as_filelike (Posix.File.mk 3)).1.raw
      = (Posix.AsFd.as_fd (Posix.File.mk 3)).1.raw :=
  (as_filelike_raw_eq_native_borrow (Posix.File.mk 3) (Windows.FileW.mk 7)
    (Windows.Sock.mk 9)).1.1

/-- C4: the portable capabilities are derived universally: every type with
the native-specific capability receives the corresponding portable
capability through the one generic blanket derivation (`instAsFilelike`,
`instIntoFilelike`, ..., quantified here over every instance type at
once), and the derived operation behaves exactly as the native one. -/
theorem portable_capabilities_universal_derivation :
    (∀ (α : Type) [Posix.AsFd α] (x : α),
        Posix.AsFilelike.as_filelike x = Posix.AsFd.as_fd x
        ∧ Posix.AsSocketlike.as_socketlike x = Posix.AsFd.as_fd x)
    ∧ (∀ (α : Type) [Posix.IntoFd α] (x : α),
        Posix.IntoFilelike.into_filelike x = Posix.IntoFd.into_fd x
        ∧ Posix.IntoSocketlike.into_socketlike x = Posix.IntoFd.into_fd x)
    ∧ (∀ (α : Type) [Posix.FromFd α] (o : Posix.OwnedFilelike),
        (Posix.FromFilelike.from_filelike o : α × List Posix.Ev)
          = Posix.FromFd.from_fd o
        ∧ (Posix.FromSocketlike.from_socketlike o : α × List Posix.Ev)
          = Posix.FromFd.from_fd o)
    ∧ (∀ (β : Type) [Windows.AsHandle β] (y : β),
        Windows.AsFilelike.as_filelike y = Windows.AsHandle.as_handle y)
    ∧ (∀ (γ : Type) [Windows.AsSocket γ] (z : γ),
        Windows.AsSocketlike.as_socketlike z = Windows.AsSocket.as_socket z)
    ∧ (∀ (β : Type) [Windows.IntoHandle β] (y : β),
        Windows.IntoFilelike.into_filelike y = Windows.IntoHandle.into_handle y)
    ∧ (∀ (γ : Type) [Windows.IntoSocket γ] (z : γ),
        Windows.IntoSocketlike.into_socketlike z = Windows.IntoSocket.into_socket z)
    ∧ (∀ (β : Type) [Windows.FromHandle β] (o : Windows.OwnedFilelike),
        (Windows.FromFilelike.from_filelike o : β × List Windows.Ev)
          = Windows.FromHandle.from_handle o)
    ∧ (∀ (γ : Type) [Windows.FromSocket γ] (o : Windows.OwnedSocketlike),
        (Windows.FromSocketlike.from_socketlike o : γ × List Windows.Ev)
          = Windows.FromSocket.from_socket o) :=
  ⟨fun _a _ _x => ⟨rfl, rfl⟩, fun _b _ _y => ⟨rfl, rfl⟩,
    fun _c _ _o => ⟨rfl, rfl⟩, fun _d _ _u => rfl, fun _e _ _v => rfl,
    fun _f _ _w => rfl, fun _g _ _t => rfl, fun _k _ _p => rfl,
    fun _m _ _q => rfl⟩

/-- Witness for C4 at a concrete instance type. -/
theorem portable_capabilities_universal_derivation_witness :
    Posix.AsFilelike.as_filelike (Posix.File.mk 3)
      = Posix.AsFd.as_fd (Posix.File.mk 3) :=
  (portable_capabilities_universal_derivation.1 Posix.File (Posix.File.mk 3)).1

/-- C5: every operation of the safe surface (`as_filelike`,
`as_socketlike`, `into_filelike`, `into_socketlike`, `from_filelike`,
`from_socketlike`, `from_into_filelike`, `from_into_socketlike`) is total
and performs no I/O. Totality and the absence of abnormal termination are
intrinsic to the embedding: each operation is a total Lean function (no
`Option`/`Except`, no partiality), exactly as the Rust bodies have no
failing path. The theorem states the no-I/O part: under the collaborator
contract that the native capability implementations perform no OS events,
every safe-surface operation performs no OS events, on both platform
families. -/
theorem safe_surface_total_no_io
    {α β γ : Type}
    [Posix.AsFd α] [Posix.IntoFd α] [Posix.FromFd α]
    [Windows.AsHandle β] [Windows.IntoHandle β] [Windows.FromHandle β]
    [Windows.AsSocket γ] [Windows.IntoSocket γ] [Windows.FromSocket γ]
    (hpa : ∀ x : α, (Posix.AsFd.as_fd x).2 = [])
    (hpi : ∀ x : α, (Posix.IntoFd.into_fd x).2 = [])
    (hpf : ∀ o, (Posix.FromFd.from_fd o : α × List Posix.Ev).2 = [])
    (hwa : ∀ y : β, (Windows.AsHandle.as_handle y).2 = [])
    (hwi : ∀ y : β, (Windows.IntoHandle.into_handle y).2 = [])
    (hwf : ∀ o, (Windows.FromHandle.from_handle o : β × List Windows.Ev).2 = [])
    (hsa : ∀ z : γ, (Windows.AsSocket.as_socket z).2 = [])
    (hsi : ∀ z : γ, (Windows.IntoSocket.into_socket z).2 = [])
    (hsf : ∀ o, (Windows.FromSocket.from_socket o : γ × List Windows.Ev).2 = []) :
    (∀ x : α, (Posix.AsFilelike.as_filelike x).2 = []
      ∧ (Posix.AsSocketlike.as_socketlike x).2 = []
      ∧ (Posix.IntoFilelike.into_filelike x).2 = []
      ∧ (Posix.IntoSocketlike.into_socketlike x).2 = []
      ∧ (Posix.FromFilelike.from_into_filelike x : α × List Posix.Ev).2 = []
      ∧ (Posix.FromSocketlike.from_into_socketlike x : α × List Posix.Ev).2 = [])
    ∧ (∀ o : Posix.OwnedFilelike,
        (Posix.FromFilelike.from_filelike o : α × List Posix.Ev).2 = []
        ∧ (Posix.FromSocketlike.from_socketlike o : α × List Posix.Ev).2 = [])
    ∧ (∀ y : β, (Windows.AsFilelike.as_filelike y).2 = []
        ∧ (Windows.IntoFilelike.into_filelike y).2 = []
        ∧ (Windows.FromFilelike.from_into_filelike y : β × List Windows.Ev).2 = [])
    ∧ (∀ o : Windows.OwnedFilelike,
        (Windows.FromFilelike.from_filelike o : β × List Windows.Ev).2 = [])
    ∧ (∀ z : γ, (Windows.AsSocketlike.as_socketlike z).2 = []
        ∧ (Windows.IntoSocketlike.into_socketlike z).2 = []
        ∧ (Windows.FromSocketlike.from_into_socketlike z : γ × List Windows.Ev).2 = [])
    ∧ (∀ o : Windows.OwnedSocketlike,
        (Windows.FromSocketlike.from_socketlike o : γ × List Windows.Ev).2 = []) := by
  refine ⟨fun x => ⟨hpa x, hpa x, hpi x, hpi x, ?_, ?_⟩,
    fun o => ⟨hpf o, hpf o⟩,
    fun y => ⟨hwa y, hwi y, ?_⟩, fun o => hwf o,
    fun z => ⟨hsa z, hsi z, ?_⟩, fun o => hsf o⟩
  · show (Posix.IntoFd.into_fd x).2
        ++ (Posix.FromFd.from_fd (Posix.IntoFd.into_fd x).1
              : α × List Posix.Ev).2 = []
    simp [hpi, hpf]
  · show (Posix.IntoFd.into_fd x).2
        ++ (Posix.FromFd.from_fd (Posix.IntoFd.into_fd x).1
              : α × List Posix.Ev).2 = []
    simp [hpi, hpf]
  · show (Windows.IntoHandle.into_handle y).2
        ++ (Windows.FromHandle.from_handle (Windows.IntoHandle.into_handle y).1
              : β × List Windows.Ev).2 = []
    simp [hwi, hwf]
  · show (Windows.IntoSocket.into_socket z).2
        ++ (Windows.FromSocket.from_socket (Windows.IntoSocket.into_socket z).1
              : γ × List Windows.Ev).2 = []
    simp [hsi, hsf]

/-- Witness for C5 at concrete relabeling resources. -/
theorem safe_surface_total_no_io_witness :
    (Posix.AsFilelike.as_filelike (Posix.File.mk 3)).2 = []
    ∧ (Posix.FromFilelike.from_into_filelike (Posix.File.mk 3)
        : Posix.File × List Posix.Ev).2 = [] := by
  have h := (safe_surface_total_no_io (α := Posix.File) (β := Windows.FileW)
    (γ := Windows.Sock) (fun _x => rfl) (fun _y => rfl) (fun _o => rfl)
    (fun _u => rfl) (fun _v => rfl) (fun _w => rfl) (fun _p => rfl)
    (fun _q => rfl) (fun _t => rfl)).1 (Posix.File.mk 3)
  exact ⟨h.1, h.2.2.2.2.1⟩

/-- C6: on the Windows family the filelike and socketlike classifications
select distinct wrapper types (`OwnedHandle` versus `OwnedSocket`,
`BorrowedHandle` versus `BorrowedSocket`), so supplying a resource of the
wrong classification to a construct operation is a type mismatch —
rejected before any code runs, never surfaced at runtime (in this
embedding, `Windows.FromFilelike.from_filelike` cannot even be applied to
a `Windows.OwnedSocket`, since the types differ). In addition, no other
failure mode exists in the construct path: `from_filelike` and
`from_socketlike` are total pure forwardings to the native construct
capability. -/
theorem windows_wrong_classification_type_mismatch :
    (ownedFilelikeTy .windows ≠ ownedSocketlikeTy .windows
      ∧ borrowedFilelikeTy .windows ≠ borrowedSocketlikeTy .windows)
    ∧ (∀ (α : Type) [Windows.FromHandle α] (o : Windows.OwnedFilelike),
        (Windows.FromFilelike.from_filelike o : α × List Windows.Ev)
          = Windows.FromHandle.from_handle o)
    ∧ (∀ (α : Type) [Windows.FromSocket α] (o : Windows.OwnedSocketlike),
        (Windows.FromSocketlike.from_socketlike o : α × List Windows.Ev)
          = Windows.FromSocket.from_socket o) :=
  ⟨⟨by decide, by decide⟩, fun _ _ _ => rfl, fun _ _ _ => rfl⟩

/-- Witness for C6 at a concrete construct call. -/
theorem windows_wrong_classification_type_mismatch_witness :
    (Windows.FromFilelike.from_filelike (Windows.OwnedHandle.mk 7)
        : Windows.FileW × List Windows.Ev)
      = Windows.FromHandle.from_handle (Windows.OwnedHandle.mk 7) :=
  windows_wrong_classification_type_mismatch.2.1 Windows.FileW
    (Windows.OwnedHandle.mk 7)

/-- C7: on the POSIX family the classifications are identical to the
native descriptor: `BorrowedFilelike`, `BorrowedSocketlike` and
`BorrowedFd` are the same type, `OwnedFilelike`, `OwnedSocketlike` and
`OwnedFd` are the same type (both as Lean type equalities and in the
alias-selection tables), and for every object `as_filelike` and
`as_socketlike` return the same descriptor value, while `into_filelike`
and `into_socketlike` yield the same owned value. -/
theorem posix_single_descriptor_space :
    (Posix.BorrowedFilelike = Posix.BorrowedFd
      ∧ Posix.BorrowedSocketlike = Posix.BorrowedFd
      ∧ Posix.OwnedFilelike = Posix.OwnedFd
      ∧ Posix.OwnedSocketlike = Posix.OwnedFd)
    ∧ (borrowedFilelikeTy .posix = borrowedSocketlikeTy .posix
      ∧ ownedFilelikeTy .posix = ownedSocketlikeTy .posix)
    ∧ (∀ (α : Type) [Posix.AsFd α] (x : α),
        Posix.AsFilelike.as_filelike x = Posix.AsSocketlike.as_socketlike x)
    ∧ (∀ (α : Type) [Posix.IntoFd α] (x : α),
        Posix.IntoFilelike.into_filelike x = Posix.IntoSocketlike.into_socketlike x) :=
  ⟨⟨rfl, rfl, rfl, rfl⟩, ⟨rfl, rfl⟩, fun _ _ _ => rfl, fun _ _ _ => rfl⟩

/-- Witness for C7 at a concrete resource. -/
theorem posix_single_descriptor_space_witness :
    Posix.AsFilelike.as_filelike (Posix.File.mk 3)
      = Posix.AsSocketlike.as_socketlike (Posix.File.mk 3) :=
  posix_single_descriptor_space.2.2.1 Posix.File (Posix.File.mk 3)

/-- Counterexample to C8: portability.rs does not offer the
ownership-transferring raw extraction for the socketlike classification on
the POSIX family — the file declares no POSIX `IntoRawSocketlike` trait
(its only `IntoRawSocketlike` is under `cfg(windows)`, lines 370-381),
so the raw consume operation for (posix, socketlike) is absent from the
transcribed surface. -/
theorem raw_layer_missing_posix_into_raw_socketlike :
    ¬ offersForm Platform.posix Classification.socketlike CapFamily.consume
        CapForm.raw = true := by
  decide

/-- C8 as amended: the raw capability layer offers the three unchecked
operations (borrow-style extraction, ownership-transferring extraction,
and unchecked construction) for each classification on each platform
family, with the single exception of the ownership-transferring
extraction for the socketlike classification on the POSIX family, which
is not declared. -/
theorem raw_layer_inventory_amended :
    ∀ (p : Platform) (c : Classification) (fam : CapFamily),
      ¬(p = Platform.posix ∧ c = Classification.socketlike
          ∧ fam = CapFamily.consume) →
      offersForm p c fam CapForm.raw = true := by
  decide

/-- Witness for the amended C8: the Windows socketlike raw consume
operation is offered. -/
theorem raw_layer_inventory_amended_witness :
    offersForm Platform.windows Classification.socketlike CapFamily.consume
      CapForm.raw = true :=
  raw_layer_inventory_amended Platform.windows Classification.socketlike
    CapFamily.consume (by decide)

/-- Counterexample to C9: the raw capability layer is not part of the
public surface — the raw borrow trait for the filelike classification on
POSIX is declared `pub(crate)` (line 293), and no raw-form trait in
portability.rs is declared `pub`. -/
theorem raw_layer_not_public_counterexample :
    (⟨Platform.posix, Classification.filelike, CapFamily.borrow, CapForm.raw,
        Visibility.vpubCrate⟩ : TraitEntry) ∈ portabilitySurface
    ∧ ∀ e ∈ portabilitySurface,
        e.form = CapForm.raw → e.vis ≠ Visibility.vpub := by
  decide

/-- C9 as amended: each of the three capability families is offered in
both a safe and a raw form; every safe-form trait is public (`pub`), while
every raw-form trait is an explicitly segregated unchecked surface scoped
to the crate (`pub(crate)`) — usable by the other modules of the crate,
not exported to external callers. The raw form exists for every
classification and family combination except the POSIX socketlike consume
operation. -/
theorem raw_layer_crate_visibility :
    (∀ (p : Platform) (c : Classification) (fam : CapFamily),
        offersForm p c fam CapForm.safe = true)
    ∧ (∀ e ∈ portabilitySurface,
        e.form = CapForm.safe → e.vis = Visibility.vpub)
    ∧ (∀ e ∈ portabilitySurface,
        e.form = CapForm.raw → e.vis = Visibility.vpubCrate)
    ∧ (∀ fam : CapFamily,
        offersForm Platform.posix Classification.filelike fam CapForm.raw = true
        ∧ offersForm Platform.windows Classification.filelike fam CapForm.raw = true
        ∧ offersForm Platform.windows Classification.socketlike fam CapForm.raw = true) := by
  decide

/-- Witness for the amended C9: the safe borrow capability for the POSIX
filelike classification is offered publicly. -/
theorem raw_layer_crate_visibility_witness :
    offersForm Platform.posix Classification.filelike CapFamily.borrow
      CapForm.safe = true :=
  raw_layer_crate_visibility.1 Platform.posix Classification.filelike
    CapFamily.borrow

/-- C10: the safe and raw borrow layers are coherent: for every object
whose type supports the native borrow capability, the raw value carried by
the borrowed reference returned by `as_filelike` equals the value returned
by `as_raw_filelike`, and `as_socketlike` agrees with `as_raw_socketlike`,
on both platform families — given the collaborator contract that the
native safe borrow and native raw borrow agree on the object. -/
theorem safe_raw_borrow_coherent
    {α β γ : Type} [Posix.AsFd α] [Posix.AsRawFd α]
    [Windows.AsHandle β] [Windows.AsRawHandle β]
    [Windows.AsSocket γ] [Windows.AsRawSocket γ]
    (x : α) (y : β) (z : γ)
    (hx : (Posix.AsFd.as_fd x).1.raw = (Posix.AsRawFd.as_raw_fd x).1)
    (hy : (Windows.AsHandle.as_handle y).1.raw
      = (Windows.AsRawHandle.as_raw_handle y).1)
    (hz : (Windows.AsSocket.as_socket z).1.raw
      = (Windows.AsRawSocket.as_raw_socket z).1) :
    ((Posix.AsFilelike.as_filelike x).1.raw
        = (Posix.AsRawFilelike.as_raw_filelike x).1
      ∧ (Posix.AsSocketlike.as_socketlike x).1.raw
        = (Posix.AsRawSocketlike.as_raw_socketlike x).1)
    ∧ ((Windows.AsFilelike.as_filelike y).1.raw
        = (Windows.AsRawFilelike.as_raw_filelike y).1
      ∧ (Windows.AsSocketlike.as_socketlike z).1.raw
        = (Windows.AsRawSocketlike.as_raw_socketlike z).1) :=
  ⟨⟨hx, hx⟩, ⟨hy, hz⟩⟩

/-- Witness for C10 at concrete resources. -/
theorem safe_raw_borrow_coherent_witness :
    (Posix.AsFilelike.as_filelike (Posix.File.mk 3)).1.raw
      = (Posix.AsRawFilelike.as_raw_filelike (Posix.File.mk 3)).1 :=
  (safe_raw_borrow_coherent (Posix.File.mk 3) (Windows.FileW.mk 7)
    (Windows.Sock.mk 9) rfl rfl rfl).1.1
